import Mathlib

/-!
# Verification of the node-jwt authentication core

A shallow embedding of `src/src/auth.js` (the primary implementation of the
keystore-based JWT verification / issuance / middleware core).  JavaScript
objects holding the keystore become association lists in insertion order
(the `for..in` iteration order used by the exhaustive scan), JS string
truthiness becomes a non-emptiness test, and thrown `UnauthorizedError`s
become an `Except` error type.

The external `jsonwebtoken` primitive (`jwt.decode`, `jwt.verify`,
`jwt.sign`) is not part of the repository.  Modelled from the spec: the
supplied crypto capability `decodeUnverified(token) -> {header, payload} |
error`, `verifySignature(token, key, constraints) -> payload | error`,
`sign(payload, key, header) -> token`, refined with the standard behaviour
of the `jsonwebtoken` library at the call sites the repository uses
(error messages "invalid signature", "jwt expired", "jwt malformed",
"maxAge exceeded"; `sign` stamps an `iat` claim into the payload).
-/

/-- Key identifiers are strings (the keys of the keystore object). -/
abbrev KeyId := String

/-- Key material is opaque secret data; the repository stores it as strings.
JS truthiness of a key is modelled as non-emptiness. -/
abbrev Key := String

/-- A keystore: JS object from key id to key material, in insertion order
(which is the `for..in` iteration order for the exhaustive scan). -/
abbrev Keystore := List (KeyId × Key)

/-- A decoded JWT payload: the expiration claim `exp`, the issued-at claim
`iat` (both optional), and the remaining application claims collapsed into
an opaque `body`. -/
structure Payload where
  exp : Option Int := none
  iat : Option Int := none
  body : String := ""
deriving DecidableEq, Repr

/-- A structurally valid signed token: its header (optional `kid`, and the
algorithm name `alg`), its payload, and the key material it was signed
with. -/
structure SignedToken where
  kid : Option String := none
  alg : String := "HS512"
  payload : Payload
  signedWith : Key
deriving DecidableEq, Repr

/-- A string in token position: either the encoding of a structurally valid
signed token, or garbage that does not decode as a base-encoded triple. -/
inductive Token where
  | valid (st : SignedToken)
  | malformed (raw : String)
deriving DecidableEq, Repr

/-- The header/payload view returned by `jwt.decode(token, {complete:true})`. -/
structure DecodedComplete where
  kid : Option String
  alg : String
  payload : Payload
deriving DecidableEq, Repr

/-- Modelled from the spec: `decodeUnverified` with `complete:true` —
`jwt.decode(token, { complete: true })`, returning `null` (here `none`)
when the token does not decode structurally. -/
def decodeComplete : Token → Option DecodedComplete
  | .valid st => some ⟨st.kid, st.alg, st.payload⟩
  | .malformed _ => none

/-- Modelled from the spec: plain `jwt.decode(token)` (payload only,
`null` on structural failure), as used by the middleware to populate
`res.locals.JWTPayload`. -/
def decodePayload : Token → Option Payload
  | .valid st => some st.payload
  | .malformed _ => none

/-- The `jwtOptions` object handed to `jwt.verify`: the permitted algorithm
set and the optional `maxAge` constraint (in seconds; `none` models the
field being absent or set to `undefined`). -/
structure JwtOptions where
  algorithms : List String
  maxAge : Option Nat
deriving DecidableEq, Repr

/-- Modelled from the spec: the supplied `verifySignature(token, key,
constraints) -> payload | error` primitive, i.e. `jwt.verify`, with the
`jsonwebtoken` check order and error messages the repository relies on:
structural decode ("jwt malformed"), key presence ("secret or public key
must be provided"), permitted algorithms ("invalid algorithm"), signature
("invalid signature"), the `exp` claim ("jwt expired"), then the `maxAge`
constraint (which requires an `iat` claim; "maxAge exceeded"). -/
def jwtVerify (now : Int) (opts : JwtOptions) (token : Token) (key : Key) :
    Except String Payload :=
  match token with
  | .malformed _ => .error "jwt malformed"
  | .valid st =>
    if key.isEmpty then .error "secret or public key must be provided"
    else if !(opts.algorithms.contains st.alg) then .error "invalid algorithm"
    else if st.signedWith != key then .error "invalid signature"
    else if (match st.payload.exp with
             | some e => decide (now ≥ e)
             | none => false) then .error "jwt expired"
    else
      match opts.maxAge with
      | none => .ok st.payload
      | some m =>
        match st.payload.iat with
        | none => .error "iat required when maxAge is specified"
        | some i =>
          if now ≥ i + (m : Int) then .error "maxAge exceeded"
          else .ok st.payload

/-- JS string truthiness for an optional string field: present and
non-empty. -/
def strTruthy : Option String → Bool
  | none => false
  | some s => !s.isEmpty

/-- `keystore[kid]` followed by the `if (key)` truthiness guard: the first
entry with this id, provided its key material is truthy (non-empty). -/
def truthyLookup (ks : Keystore) (kid : String) : Option Key :=
  match ks.find? (fun pr => pr.1 == kid) with
  | some pr => if pr.2.isEmpty then none else some pr.2
  | none => none

/-- The error returned in the first slot of a verifier's triple: either a
plain string sentinel (which has no `.message` property in JS), or a
caught `Error` object carrying a `message`. -/
inductive VerifierError where
  | sentinel (msg : String)
  | jsError (message : String)
deriving DecidableEq, Repr

/-- The outcome of one verifier in the strategy list: each verifier returns
either `[error, undefined, undefined]` or `[undefined, payload, kid]`. -/
inductive VerifierOut where
  | failure (e : VerifierError)
  | success (payload : Payload) (kid : KeyId)
deriving DecidableEq, Repr

/-- The classified `UnauthorizedError`s the module throws:
`"Format is Authorization: Bearer [token]"`, `"JWT is required"`,
`(error, "Verification Error")`, `"Verification Error: No matching keys"`,
and `(err, "Token signing failed")`. -/
inductive UnauthorizedError where
  | malformedAuthorizationHeader
  | jwtRequired
  | verificationError (cause : VerifierError)
  | noMatchingKey
  | signingError
deriving DecidableEq, Repr

/-- The fatality test of the strategy loop:
`error && error.message && error.message !== "invalid signature"`.
A string sentinel has no `.message` (undefined, falsy), so only a caught
`Error` with a non-empty message other than "invalid signature" is
fatal. -/
def fatalErr : VerifierError → Bool
  | .sentinel _ => false
  | .jsError m => !m.isEmpty && m != "invalid signature"

/-- `verifyWithKid` from `verifyTokenAndReturnPayloadAndKid`: if the decoded
header carries a truthy `kid` that maps to a truthy key, verify with that
single key, catching any thrown error; otherwise the sentinel
"kid verification failed". -/
def verifyWithKid (now : Int) (opts : JwtOptions) (token : Token)
    (ks : Keystore) : VerifierOut :=
  match decodeComplete token with
  | some d =>
    match d.kid with
    | some kid =>
      if !kid.isEmpty then
        match truthyLookup ks kid with
        | some key =>
          match jwtVerify now opts token key with
          | .ok p => .success p kid
          | .error m => .failure (.jsError m)
        | none => .failure (.sentinel "kid verification failed")
      else .failure (.sentinel "kid verification failed")
    | none => .failure (.sentinel "kid verification failed")
  | none => .failure (.sentinel "kid verification failed")

/-- `verifyWithDefault`: if `keystore.default` is truthy, verify with it
(catching any thrown error), reporting key id `"default"`; otherwise the
sentinel "default verification failed". -/
def verifyWithDefault (now : Int) (opts : JwtOptions) (token : Token)
    (ks : Keystore) : VerifierOut :=
  match truthyLookup ks "default" with
  | some key =>
    match jwtVerify now opts token key with
    | .ok p => .success p "default"
    | .error m => .failure (.jsError m)
  | none => .failure (.sentinel "default verification failed")

/-- The `for (const kid in keystore)` loop body of `verifyWithKeystore`:
every entry other than `"default"` is tried in iteration order, and any
thrown error is caught and ignored before moving to the next key. -/
def scanKeystore (now : Int) (opts : JwtOptions) (token : Token) :
    Keystore → VerifierOut
  | [] => .failure (.sentinel "all verification failed")
  | (kid, key) :: rest =>
    if kid == "default" then scanKeystore now opts token rest
    else
      match jwtVerify now opts token key with
      | .ok p => .success p kid
      | .error _ => scanKeystore now opts token rest

/-- `verifyWithKeystore`: the exhaustive scan over all non-`"default"`
entries. -/
def verifyWithKeystore (now : Int) (opts : JwtOptions) (token : Token)
    (ks : Keystore) : VerifierOut :=
  scanKeystore now opts token ks

/-- The strategy loop of `verifyTokenAndReturnPayloadAndKid`: run each
verifier in order; a fatal error aborts with `(error, "Verification
Error")`; a truthy payload breaks out successfully; exhausting the list
without a payload throws "Verification Error: No matching keys". -/
def runVerifiers : List VerifierOut → Except UnauthorizedError (Payload × KeyId)
  | [] => .error .noMatchingKey
  | .failure e :: rest =>
    if fatalErr e then .error (.verificationError e) else runVerifiers rest
  | .success p kid :: _ => .ok (p, kid)

/-- The `jwtOptions` construction in `verifyTokenAndReturnPayloadAndKid`:
the permitted algorithms from `purpose` ("local" → HS512, "public" →
ES512, anything else → empty), and `maxAge` set to `process.env.MAX_JWT_AGE`
exactly when the token decodes and its payload has no `exp` claim. -/
def engineOptions (maxJwtAgeEnv : Option Nat) (purpose : String)
    (token : Token) : JwtOptions :=
  { algorithms :=
      if purpose == "local" then ["HS512"]
      else if purpose == "public" then ["ES512"]
      else []
    maxAge :=
      match decodeComplete token with
      | some d => if d.payload.exp == none then maxJwtAgeEnv else none
      | none => none }

/-- `verifyTokenAndReturnPayloadAndKid(token, options)`: build the options,
then run the three verification strategies (kid lookup, default fallback,
exhaustive scan) through the strategy loop.  `now` is the verification
clock and `maxJwtAgeEnv` models `process.env.MAX_JWT_AGE`. -/
def verifyTokenAndReturnPayloadAndKid (now : Int) (maxJwtAgeEnv : Option Nat)
    (token : Token) (ks : Keystore) (purpose : String) :
    Except UnauthorizedError (Payload × KeyId) :=
  let opts := engineOptions maxJwtAgeEnv purpose token
  runVerifiers
    [verifyWithKid now opts token ks,
     verifyWithDefault now opts token ks,
     verifyWithKeystore now opts token ks]

/-- Modelled from the spec: `jwt.sign`'s treatment of the payload — the
`jsonwebtoken` primitive stamps an `iat` (issued-at) claim into the signed
payload when the payload does not already carry one. -/
def signPayload (now : Int) (p : Payload) : Payload :=
  { p with iat := p.iat <|> some now }

/-- The signing-key selection chain of `createToken`:
`keystore[kid] || keystore.default || keystore[Object.keys(keystore)[0]]`.
The first two disjuncts fall through on a falsy (absent or empty) key; the
last yields the first entry's raw value (possibly falsy), or `undefined`
(`none`) on an empty keystore. -/
def selectKey (ks : Keystore) (kidOpt : Option String) : Option Key :=
  (match kidOpt with
   | some kid => truthyLookup ks kid
   | none => none) <|>
  truthyLookup ks "default" <|>
  ks.head?.map Prod.snd

/-- `createToken(payload, options)`: select the signing key, reverse-look-up
its id by value equality (`Object.keys(keystore).find(k => keystore[k] ===
key)`), and sign with that id embedded in the header.  `jwt.sign` throws on
a falsy key, which the wrapper converts to the "Token signing failed"
`UnauthorizedError`. -/
def createToken (now : Int) (payload : Payload) (kidOpt : Option String)
    (ks : Keystore) (algorithm : String) : Except UnauthorizedError Token :=
  match selectKey ks kidOpt with
  | none => .error .signingError
  | some key =>
    if key.isEmpty then .error .signingError
    else
      let signingKid := (ks.find? (fun pr => pr.2 == key)).map Prod.fst
      .ok (.valid { kid := signingKid, alg := algorithm,
                    payload := signPayload now payload, signedWith := key })

/-- Split a character list on a separator character, JS
`String.prototype.split` style: `n` separators yield `n + 1` (possibly
empty) groups. -/
def splitChars (sep : Char) : List Char → List (List Char)
  | [] => [[]]
  | c :: cs =>
    match splitChars sep cs with
    | [] => if c == sep then [[], []] else [[c]]
    | g :: gs => if c == sep then [] :: g :: gs else (c :: g) :: gs

/-- JS `str.split(" ")` (structurally recursive so that concrete instances
evaluate). -/
def splitOnSpace (s : String) : List String :=
  (splitChars ' ' s.data).map String.mk

/-- JS `str.toLowerCase()` on the character list (structurally recursive so
that concrete instances evaluate). -/
def lowerString (s : String) : String :=
  String.mk (s.data.map Char.toLower)

/-- An HTTP request as the middleware sees it: `req.query.token` (collapsed
with the presence of `req.query` itself) and `req.headers.authorization`
(collapsed with the presence of `req.headers`); `none` models an absent
field, and JS truthiness of a present field is non-emptiness. -/
structure Request where
  queryToken : Option String := none
  authHeader : Option String := none
deriving DecidableEq, Repr

/-- `extractToken(req)`: prefer a truthy query-parameter token; otherwise,
on a truthy `Authorization` header, accept exactly the two-part
`Bearer <credentials>` form and throw "Format is Authorization: Bearer
[token]" on anything else; with neither source present, return `null`. -/
def extractToken (req : Request) : Except UnauthorizedError (Option String) :=
  if strTruthy req.queryToken then .ok req.queryToken
  else if strTruthy req.authHeader then
    match splitOnSpace (req.authHeader.getD "") with
    | [scheme, credentials] =>
      if scheme == "Bearer" then .ok (some credentials)
      else .error .malformedAuthorizationHeader
    | _ => .error .malformedAuthorizationHeader
  else .ok none

/-- `required()`: if `process.env.REQUIRE_AUTH` is truthy (present and
non-empty), require auth unless it reads (case-insensitively) "false" or
is exactly "0"; otherwise require auth exactly when `process.env.NODE_ENV`
is "production". -/
def required (requireAuthEnv : Option String) (nodeEnv : Option String) :
    Bool :=
  if strTruthy requireAuthEnv then
    lowerString (requireAuthEnv.getD "") != "false" &&
      (requireAuthEnv.getD "") != "0"
  else nodeEnv == some "production"

/-- The `res.locals` fields the middleware populates. -/
structure Locals where
  jwtPayload : Option Payload := none
  jwtVerifyingKid : Option KeyId := none
deriving DecidableEq, Repr

/-- `_authMiddleware(req, res, next)` from `buildMiddleware`: extract the
token (a malformed header throws out to `next(err)`); on a truthy token,
attach `jwt.decode(token)` to `res.locals.JWTPayload` and, only when
`isRequired`, run the verification engine and attach the matched kid to
`res.locals.JWTVerifyingKid`; on a falsy token with `isRequired`, throw
"JWT is required".  `interp` maps a token string to the token it encodes
(the strings in the request are opaque to the middleware).  The result is
the final `res.locals` paired with `next()`'s argument: `.ok ()` for a
plain `next()`, `.error e` for `next(err)`. -/
def _authMiddleware (interp : String → Token) (now : Int)
    (maxJwtAgeEnv : Option Nat) (ks : Keystore) (purpose : String)
    (isRequired : Bool) (req : Request) :
    Locals × Except UnauthorizedError Unit :=
  match extractToken req with
  | .error e => ({}, .error e)
  | .ok tokStr =>
    if strTruthy tokStr then
      let tok := interp (tokStr.getD "")
      let locals1 : Locals := { jwtPayload := decodePayload tok }
      if isRequired then
        match verifyTokenAndReturnPayloadAndKid now maxJwtAgeEnv tok ks purpose with
        | .ok (_, kid) => ({ locals1 with jwtVerifyingKid := some kid }, .ok ())
        | .error e => (locals1, .error e)
      else (locals1, .ok ())
    else if isRequired then ({}, .error .jwtRequired)
    else ({}, .ok ())

/-! ## Helper lemmas -/

/-- A fatal-or-classified helper: the strategy loop only ever throws
"No matching keys" or a wrapped "Verification Error". -/
theorem runVerifiers_error_cases (vs : List VerifierOut) (e : UnauthorizedError)
    (h : runVerifiers vs = .error e) :
    e = .noMatchingKey ∨ ∃ c, e = .verificationError c := by
  induction vs with
  | nil =>
    simp only [runVerifiers, Except.error.injEq] at h
    exact Or.inl h.symm
  | cons v rest ih =>
    cases v with
    | failure c =>
      by_cases hf : fatalErr c = true
      · simp only [runVerifiers, hf, if_true, Except.error.injEq] at h
        exact Or.inr ⟨c, h.symm⟩
      · simp only [runVerifiers, hf, if_false] at h
        exact ih h
    | success p kid => simp [runVerifiers] at h

/-- The verification engine only ever fails with "No matching keys" or a
wrapped "Verification Error". -/
theorem verify_error_cases (now : Int) (maxAgeEnv : Option Nat) (token : Token)
    (ks : Keystore) (purpose : String) (e : UnauthorizedError)
    (h : verifyTokenAndReturnPayloadAndKid now maxAgeEnv token ks purpose = .error e) :
    e = .noMatchingKey ∨ ∃ c, e = .verificationError c :=
  runVerifiers_error_cases _ _ h

/-- A successful truthy keystore lookup returns non-empty key material. -/
theorem truthyLookup_nonempty {ks : Keystore} {kid : String} {k : Key}
    (h : truthyLookup ks kid = some k) : k.isEmpty = false := by
  unfold truthyLookup at h
  cases hf : ks.find? (fun pr => pr.1 == kid) with
  | none => rw [hf] at h; cases h
  | some pr =>
    rw [hf] at h
    cases he : pr.2.isEmpty with
    | true => simp [he] at h
    | false =>
      simp only [he, Bool.false_eq_true, if_false, Option.some.injEq] at h
      subst h
      exact he

/-- If the kid-lookup strategy finds a truthy key that verifies, the engine
succeeds immediately with that kid. -/
theorem verify_via_kid (now : Int) (maxAgeEnv : Option Nat) (ks : Keystore)
    (purpose : String) (st : SignedToken) (K : KeyId) (k : Key) (p : Payload)
    (hkid : st.kid = some K) (hK : K.isEmpty = false)
    (hlook : truthyLookup ks K = some k)
    (hver : jwtVerify now (engineOptions maxAgeEnv purpose (.valid st)) (.valid st) k = .ok p) :
    verifyTokenAndReturnPayloadAndKid now maxAgeEnv (.valid st) ks purpose = .ok (p, K) := by
  unfold verifyTokenAndReturnPayloadAndKid
  simp only [verifyWithKid, decodeComplete, hkid, hK, hlook, hver,
    Bool.not_false, if_true, runVerifiers]

/-- The exhaustive scan never surfaces anything on a structurally invalid
token: every per-key "jwt malformed" throw is caught and ignored. -/
theorem scanKeystore_malformed (now : Int) (opts : JwtOptions) (raw : String)
    (ks : Keystore) :
    scanKeystore now opts (.malformed raw) ks =
      .failure (.sentinel "all verification failed") := by
  induction ks with
  | nil => rfl
  | cons hd tl ih =>
    obtain ⟨kid, key⟩ := hd
    unfold scanKeystore
    by_cases hdef : (kid == "default") = true
    · simp only [hdef, if_true, ih]
    · simp [hdef, jwtVerify, ih]

/-! ## Claims -/

/-- C2: if the token header declares `kid = K`, the keystore holds a truthy
key under `K`, and that key verifies the token under the options the engine
builds, then verification succeeds and the matched key id is exactly `K`,
whatever else the keystore contains (in particular a `"default"` entry that
would also verify). -/
theorem kid_priority (now : Int) (maxAgeEnv : Option Nat) (ks : Keystore)
    (purpose : String) (st : SignedToken) (K : KeyId) (k : Key) (p : Payload)
    (hkid : st.kid = some K) (hK : K.isEmpty = false)
    (hlook : truthyLookup ks K = some k)
    (hver : jwtVerify now (engineOptions maxAgeEnv purpose (.valid st)) (.valid st) k = .ok p) :
    verifyTokenAndReturnPayloadAndKid now maxAgeEnv (.valid st) ks purpose = .ok (p, K) :=
  verify_via_kid now maxAgeEnv ks purpose st K k p hkid hK hlook hver

/-- C2 witness: a token carrying `kid = "a"` in a keystore whose `"default"`
entry holds the very same key material still reports `"a"`. -/
theorem kid_priority_witness :
    verifyTokenAndReturnPayloadAndKid 0 none
      (.valid { kid := some "a", alg := "HS512", payload := { body := "x" },
                signedWith := "k" })
      [("default", "k"), ("a", "k")] "local" = .ok ({ body := "x" }, "a") :=
  kid_priority 0 none [("default", "k"), ("a", "k")] "local"
    { kid := some "a", alg := "HS512", payload := { body := "x" }, signedWith := "k" }
    "a" "k" { body := "x" } rfl rfl rfl rfl

/-- C4: the options the engine hands to the crypto primitive carry the
configured maximum age exactly when the decoded payload has no `exp`
claim; with an `exp` claim present, no `maxAge` constraint is set. -/
theorem maxage_exactly_when_no_exp (maxAgeEnv : Option Nat) (purpose : String)
    (st : SignedToken) :
    (engineOptions maxAgeEnv purpose (.valid st)).maxAge =
      (if st.payload.exp = none then maxAgeEnv else none) := by
  cases h : st.payload.exp <;> simp [engineOptions, decodeComplete, h]

/-- C1 counterexample: a single-key keystore, the token expired and signed
by that very key, but with no `kid` header and no `"default"` entry — the
expired-token error raised inside the exhaustive scan is swallowed per key,
the scan continues, and the engine ends with `NoMatchingKey` rather than
aborting with `VerificationError`. -/
theorem fatal_error_swallowed_in_scan :
    verifyTokenAndReturnPayloadAndKid 100 none
      (.valid { kid := none, alg := "HS512", payload := { exp := some 0 },
                signedWith := "secret" })
      [("a", "secret")] "local" = .error .noMatchingKey ∧
    jwtVerify 100
      (engineOptions none "local"
        (.valid { kid := none, alg := "HS512", payload := { exp := some 0 },
                  signedWith := "secret" }))
      (.valid { kid := none, alg := "HS512", payload := { exp := some 0 },
                signedWith := "secret" })
      "secret" = .error "jwt expired" :=
  ⟨rfl, rfl⟩

/-- C1 amended: a verifier failure other than a signature mismatch aborts
the strategy sequence with `VerificationError` carrying the underlying
cause when it is surfaced by the kid-lookup strategy (the token header
names a truthy key id mapped to a truthy key) or by the default-fallback
strategy (a truthy `"default"` key, reached after the kid strategy failed
non-fatally); in particular a single-key keystore with an expired token
signed by that key yields `VerificationError`, not `NoMatchingKey`,
whenever the header `kid` names the key or the key is stored under
`"default"`.  (Failures raised inside the exhaustive scan are instead
swallowed key by key.) -/
theorem fatal_error_aborts (now : Int) (maxAgeEnv : Option Nat)
    (ks : Keystore) (purpose : String) (token : Token) (m : String)
    (hm1 : m.isEmpty = false) (hm2 : m ≠ "invalid signature") :
    (∀ st K k, token = .valid st → st.kid = some K → K.isEmpty = false →
      truthyLookup ks K = some k →
      jwtVerify now (engineOptions maxAgeEnv purpose token) token k = .error m →
      verifyTokenAndReturnPayloadAndKid now maxAgeEnv token ks purpose =
        .error (.verificationError (.jsError m))) ∧
    (∀ e k,
      verifyWithKid now (engineOptions maxAgeEnv purpose token) token ks =
        .failure e →
      fatalErr e = false →
      truthyLookup ks "default" = some k →
      jwtVerify now (engineOptions maxAgeEnv purpose token) token k = .error m →
      verifyTokenAndReturnPayloadAndKid now maxAgeEnv token ks purpose =
        .error (.verificationError (.jsError m))) := by
  constructor
  · intro st K k htok hkid hK hlook hver
    subst htok
    unfold verifyTokenAndReturnPayloadAndKid
    simp only [verifyWithKid, decodeComplete, hkid, hK, hlook, hver,
      Bool.not_false, if_true, runVerifiers, fatalErr, hm1, Bool.not_false,
      Bool.true_and, bne_iff_ne, ne_eq, hm2, not_false_eq_true, if_true]
  · intro e k hA hfe hdef hver
    unfold verifyTokenAndReturnPayloadAndKid
    simp only [hA, runVerifiers, hfe, Bool.false_eq_true, if_false,
      verifyWithDefault, hdef, hver]
    simp only [fatalErr, hm1, Bool.not_false, Bool.true_and, bne_iff_ne,
      ne_eq, hm2, not_false_eq_true, if_true]

/-- C1 amended witness: the single-key keystore of P4 aborts with the
expired-token cause both when the key id is in the token header and when
the single key is stored under `"default"` (with no `kid` header). -/
theorem fatal_error_aborts_witness :
    verifyTokenAndReturnPayloadAndKid 100 none
      (.valid { kid := some "a", alg := "HS512", payload := { exp := some 0 },
                signedWith := "secret" })
      [("a", "secret")] "local" =
      .error (.verificationError (.jsError "jwt expired")) ∧
    verifyTokenAndReturnPayloadAndKid 100 none
      (.valid { kid := none, alg := "HS512", payload := { exp := some 0 },
                signedWith := "secret" })
      [("default", "secret")] "local" =
      .error (.verificationError (.jsError "jwt expired")) :=
  ⟨(fatal_error_aborts 100 none [("a", "secret")] "local"
      (.valid { kid := some "a", alg := "HS512", payload := { exp := some 0 },
                signedWith := "secret" })
      "jwt expired" rfl (by decide)).1
    { kid := some "a", alg := "HS512", payload := { exp := some 0 },
      signedWith := "secret" }
    "a" "secret" rfl rfl rfl rfl rfl,
   (fatal_error_aborts 100 none [("default", "secret")] "local"
      (.valid { kid := none, alg := "HS512", payload := { exp := some 0 },
                signedWith := "secret" })
      "jwt expired" rfl (by decide)).2
    (.sentinel "kid verification failed") "secret" rfl rfl rfl rfl⟩

/-- C3 counterexample: a structurally invalid token against a keystore with
no `"default"` entry does not fail with `VerificationError`: the scan tries
the key, swallows the "jwt malformed" throw, and the engine reports
`NoMatchingKey`. -/
theorem malformed_token_no_default :
    verifyTokenAndReturnPayloadAndKid 0 none (.malformed "not-a-jwt")
      [("a", "k1")] "local" = .error .noMatchingKey :=
  rfl

/-- C3 amended: a structurally invalid token fails with `VerificationError`
wrapping "jwt malformed" exactly when the keystore has a truthy `"default"`
entry (whose verification attempt surfaces the error fatally); with no
truthy `"default"` entry the scan swallows every per-key failure and the
engine reports `NoMatchingKey`. -/
theorem malformed_token_classification (now : Int) (maxAgeEnv : Option Nat)
    (ks : Keystore) (purpose : String) (raw : String) :
    verifyTokenAndReturnPayloadAndKid now maxAgeEnv (.malformed raw) ks purpose =
      .error (if (truthyLookup ks "default").isSome
              then .verificationError (.jsError "jwt malformed")
              else .noMatchingKey) := by
  unfold verifyTokenAndReturnPayloadAndKid
  cases hdef : truthyLookup ks "default" with
  | some key =>
    simp only [verifyWithKid, decodeComplete, runVerifiers, fatalErr,
      verifyWithDefault, hdef, jwtVerify, Option.isSome_some, if_true, if_false]
    rfl
  | none =>
    simp only [verifyWithKid, decodeComplete, runVerifiers, fatalErr,
      verifyWithDefault, hdef, verifyWithKeystore,
      scanKeystore_malformed, Option.isSome_none, if_false]
    rfl

/-- The well-formed shape accepted by `extractToken`: exactly two
space-separated parts whose scheme is `Bearer`. -/
def isWellFormedBearer (h : String) : Bool :=
  match splitOnSpace h with
  | [scheme, _] => scheme == "Bearer"
  | _ => false

/-- C8: with no truthy query token and a present but malformed
`Authorization` header (wrong scheme or wrong arity), extraction throws
the malformed-header error, and the middleware surfaces that error to
`next` whatever the required-auth policy is. -/
theorem malformed_header_always_fails (q : Option String) (h : String)
    (hq : strTruthy q = false) (hh : h.isEmpty = false)
    (hbad : isWellFormedBearer h = false) :
    extractToken { queryToken := q, authHeader := some h } =
      .error .malformedAuthorizationHeader ∧
    ∀ (interp : String → Token) (now : Int) (maxAgeEnv : Option Nat)
      (ks : Keystore) (purpose : String) (isRequired : Bool),
      _authMiddleware interp now maxAgeEnv ks purpose isRequired
        { queryToken := q, authHeader := some h } =
        ({}, .error .malformedAuthorizationHeader) := by
  have hext : extractToken { queryToken := q, authHeader := some h } =
      .error .malformedAuthorizationHeader := by
    unfold extractToken
    simp only [hq, Bool.false_eq_true, if_false]
    have hsh : strTruthy (some h) = true := by simp [strTruthy, hh]
    simp only [hsh, if_true, Option.getD_some]
    unfold isWellFormedBearer at hbad
    split
    · rename_i scheme credentials heq
      rw [heq] at hbad
      simp only [] at hbad
      simp [hbad]
    all_goals rfl
  refine ⟨hext, fun interp now maxAgeEnv ks purpose isRequired => ?_⟩
  unfold _authMiddleware
  rw [hext]

/-- C8 witness: the two spec examples, a wrong scheme and a missing
credential, both thrown independently of the policy. -/
theorem malformed_header_always_fails_witness :
    extractToken { queryToken := none, authHeader := some "Basic abc" } =
      .error .malformedAuthorizationHeader ∧
    _authMiddleware (fun s => .malformed s) 0 none [] "local" false
      { queryToken := none, authHeader := some "Bearer" } =
      ({}, .error .malformedAuthorizationHeader) :=
  ⟨(malformed_header_always_fails none "Basic abc" rfl rfl (by decide)).1,
   (malformed_header_always_fails none "Bearer" rfl rfl (by decide)).2
     (fun s => .malformed s) 0 none [] "local" false⟩

/-- C9 counterexample: `REQUIRE_AUTH` set to the empty string is a set flag
whose value is neither "false" nor "0", yet outside production the policy
resolves to `false` — the empty value falls through to the environment
default instead of being interpreted as true. -/
theorem require_auth_empty_flag :
    required (some "") (some "development") = false ∧
    ("" : String) ≠ "false" ∧ ("" : String) ≠ "0" :=
  ⟨rfl, by decide, by decide⟩

/-- C9 amended: a require-auth flag set to a non-empty value wins over the
environment: the result is true unless the value lowercases to "false" or
is exactly "0"; an unset or empty flag defaults to whether `NODE_ENV` is
"production". -/
theorem required_resolution (v : String) (ne : Option String) :
    (v.isEmpty = false →
      required (some v) ne = (lowerString v != "false" && v != "0")) ∧
    required (some "") ne = (ne == some "production") ∧
    required none ne = (ne == some "production") := by
  refine ⟨fun hv => ?_, ?_, ?_⟩
  · unfold required
    simp [strTruthy, hv]
  · simp [required, strTruthy, show "".isEmpty = true from rfl]
  · simp [required, strTruthy]

/-- C9 amended witness: an explicit "FALSE" beats the production default,
and an unset flag outside production resolves to false. -/
theorem required_resolution_witness :
    required (some "FALSE") (some "production") = false ∧
    required none (some "development") = false := by
  constructor
  · rw [(required_resolution "FALSE" (some "production")).1 (by decide)]
    decide
  · rw [(required_resolution "x" (some "development")).2.2]
    decide

/-- C10: a truthy query-parameter token is returned outright — the
`Authorization` header, malformed or not, is never consulted, and the
middleware can never surface the malformed-header error on such a
request. -/
theorem query_token_wins (t : String) (hdr : Option String)
    (ht : t.isEmpty = false) :
    extractToken { queryToken := some t, authHeader := hdr } = .ok (some t) ∧
    ∀ (interp : String → Token) (now : Int) (maxAgeEnv : Option Nat)
      (ks : Keystore) (purpose : String) (isRequired : Bool),
      (_authMiddleware interp now maxAgeEnv ks purpose isRequired
        { queryToken := some t, authHeader := hdr }).2 ≠
        .error .malformedAuthorizationHeader := by
  have hext : extractToken { queryToken := some t, authHeader := hdr } = .ok (some t) := by
    unfold extractToken
    simp [strTruthy, ht]
  refine ⟨hext, fun interp now maxAgeEnv ks purpose isRequired => ?_⟩
  unfold _authMiddleware
  rw [hext]
  simp only [strTruthy, ht, Bool.not_false, if_true, Option.getD_some]
  cases isRequired with
  | false => simp
  | true =>
    simp only [if_true]
    cases hv : verifyTokenAndReturnPayloadAndKid now maxAgeEnv (interp t) ks purpose with
    | ok pk => simp [hv]
    | error e =>
      rcases verify_error_cases _ _ _ _ _ _ hv with he | ⟨c, he⟩ <;>
        subst he <;> simp [hv]

/-- C10 witness: a query token together with a malformed header extracts the
query token and the middleware does not raise the malformed-header
error. -/
theorem query_token_wins_witness :
    extractToken { queryToken := some "tok", authHeader := some "Basic abc" } =
      .ok (some "tok") ∧
    (_authMiddleware (fun s => .malformed s) 0 none [] "local" true
      { queryToken := some "tok", authHeader := some "Basic abc" }).2 ≠
      .error .malformedAuthorizationHeader :=
  ⟨(query_token_wins "tok" (some "Basic abc") rfl).1,
   (query_token_wins "tok" (some "Basic abc") rfl).2
     (fun s => .malformed s) 0 none [] "local" true⟩

/-- C5 counterexample: with a token present and the required-auth policy
false, the middleware succeeds and attaches the *unverified* decoded
payload without ever invoking the Verification Engine — the very same
token fails the engine (no key in the keystore verifies it), yet the
request passes. -/
theorem middleware_skips_verification :
    _authMiddleware
      (fun _ => .valid { kid := none, alg := "HS512", payload := { body := "b" },
                         signedWith := "unknown" })
      0 none [("a", "k")] "local" false { queryToken := some "t" } =
      ({ jwtPayload := some { body := "b" }, jwtVerifyingKid := none }, .ok ()) ∧
    verifyTokenAndReturnPayloadAndKid 0 none
      (.valid { kid := none, alg := "HS512", payload := { body := "b" },
                signedWith := "unknown" })
      [("a", "k")] "local" = .error .noMatchingKey :=
  ⟨rfl, rfl⟩

/-- C5 amended: on a present (truthy) token the middleware always attaches
the unverified decoded payload; it invokes the Verification Engine only
when the required-auth policy is true, attaching the matched key id on
success and surfacing the classified failure on error; on a missing (or
falsy) token it passes the request through untouched when the policy is
false and rejects with the required-error when it is true. -/
theorem middleware_behaviour (interp : String → Token) (now : Int)
    (maxAgeEnv : Option Nat) (ks : Keystore) (purpose : String) (req : Request) :
    (∀ t, extractToken req = .ok (some t) → t.isEmpty = false →
      (_authMiddleware interp now maxAgeEnv ks purpose false req =
        ({ jwtPayload := decodePayload (interp t) }, .ok ())) ∧
      (∀ p kid,
        verifyTokenAndReturnPayloadAndKid now maxAgeEnv (interp t) ks purpose = .ok (p, kid) →
        _authMiddleware interp now maxAgeEnv ks purpose true req =
          ({ jwtPayload := decodePayload (interp t),
             jwtVerifyingKid := some kid }, .ok ())) ∧
      (∀ e,
        verifyTokenAndReturnPayloadAndKid now maxAgeEnv (interp t) ks purpose = .error e →
        _authMiddleware interp now maxAgeEnv ks purpose true req =
          ({ jwtPayload := decodePayload (interp t) }, .error e))) ∧
    (∀ r, extractToken req = .ok r → strTruthy r = false →
      ∀ isRequired, _authMiddleware interp now maxAgeEnv ks purpose isRequired req =
        ({}, if isRequired then .error .jwtRequired else .ok ())) := by
  constructor
  · intro t hext ht
    have hst : strTruthy (some t) = true := by simp [strTruthy, ht]
    refine ⟨?_, ?_, ?_⟩
    · unfold _authMiddleware
      rw [hext]
      simp only [hst, if_true, Option.getD_some, Bool.false_eq_true, if_false]
    · intro p kid hv
      unfold _authMiddleware
      rw [hext]
      simp only [hst, if_true, Option.getD_some, hv]
    · intro e hv
      unfold _authMiddleware
      rw [hext]
      simp only [hst, if_true, Option.getD_some, hv]
  · intro r hext hr isRequired
    unfold _authMiddleware
    rw [hext]
    simp only [hr, Bool.false_eq_true, if_false]
    cases isRequired <;> simp

/-- C5 amended witness: a verifiable token is attached decoded-only under
`required = false`, verified (kid attached) under `required = true`, and a
missing token passes through untouched under `required = false`. -/
theorem middleware_behaviour_witness :
    _authMiddleware
      (fun _ => .valid { kid := some "a", alg := "HS512",
                         payload := { body := "x" }, signedWith := "k" })
      0 none [("a", "k")] "local" false { queryToken := some "t" } =
      ({ jwtPayload := some { body := "x" }, jwtVerifyingKid := none }, .ok ()) ∧
    _authMiddleware
      (fun _ => .valid { kid := some "a", alg := "HS512",
                         payload := { body := "x" }, signedWith := "k" })
      0 none [("a", "k")] "local" true { queryToken := some "t" } =
      ({ jwtPayload := some { body := "x" }, jwtVerifyingKid := some "a" }, .ok ()) ∧
    _authMiddleware
      (fun _ => .valid { kid := some "a", alg := "HS512",
                         payload := { body := "x" }, signedWith := "k" })
      0 none [("a", "k")] "local" false {} = ({}, .ok ()) := by
  refine ⟨?_, ?_, ?_⟩
  · exact ((middleware_behaviour _ 0 none [("a", "k")] "local"
      { queryToken := some "t" }).1 "t" rfl rfl).1
  · exact ((middleware_behaviour _ 0 none [("a", "k")] "local"
      { queryToken := some "t" }).1 "t" rfl rfl).2.1 { body := "x" } "a" rfl
  · exact (middleware_behaviour _ 0 none [("a", "k")] "local" {}).2 none rfl rfl false

/-- In a keystore with no duplicate ids, looking an entry up by its id
finds exactly that entry. -/
theorem find_fst_of_nodup {ks : Keystore} {pr : KeyId × Key}
    (hnodup : (ks.map Prod.fst).Nodup) (hmem : pr ∈ ks) :
    ks.find? (fun q => q.1 == pr.1) = some pr := by
  induction ks with
  | nil => cases hmem
  | cons hd tl ih =>
    rcases List.mem_cons.mp hmem with h | h
    · subst h
      rw [List.find?_cons_of_pos _ (by simp)]
    · have hhd : hd.1 ∉ tl.map Prod.fst := by
        simp only [List.map_cons, List.nodup_cons] at hnodup
        exact hnodup.1
      have htl : (tl.map Prod.fst).Nodup := by
        simp only [List.map_cons, List.nodup_cons] at hnodup
        exact hnodup.2
      have hne : ¬ ((hd.1 == pr.1) = true) := by
        simp only [beq_iff_eq]
        intro hEq
        exact hhd (hEq ▸ List.mem_map_of_mem Prod.fst h)
      have hstep : List.find? (fun q => q.1 == pr.1) (hd :: tl) =
          List.find? (fun q => q.1 == pr.1) tl :=
        List.find?_cons_of_neg tl hne
      rw [hstep]
      exact ih htl h

/-- A freshly signed token (iat stamped with the current clock, expiration
in the future, nonzero configured max age) passes the crypto primitive
under the options the engine builds for it, with the key it was signed
with. -/
theorem jwtVerify_fresh (now : Int) (maxAgeEnv : Option Nat) (st : SignedToken)
    (hk : st.signedWith.isEmpty = false)
    (halg : st.alg = "HS512")
    (hiat2 : st.payload.iat = some now)
    (hexpok : ∀ e, st.payload.exp = some e → now < e)
    (hmax : maxAgeEnv ≠ some 0) :
    jwtVerify now (engineOptions maxAgeEnv "local" (.valid st)) (.valid st)
      st.signedWith = .ok st.payload := by
  cases hE : st.payload.exp with
  | some e =>
    have hge : ¬ (now ≥ e) := not_le.mpr (hexpok e hE)
    simp [jwtVerify, engineOptions, decodeComplete, hk, halg, hE, hge]
  | none =>
    cases hM : maxAgeEnv with
    | none => simp [jwtVerify, engineOptions, decodeComplete, hk, halg, hE]
    | some m =>
      have hm0 : m ≠ 0 := fun h => hmax (by rw [hM, h])
      have hlt : ¬ (now ≥ now + (m : Int)) := by omega
      simp [jwtVerify, engineOptions, decodeComplete, hk, halg, hE, hiat2, hlt]

/-- C6 counterexample: issuing from a payload with no `iat` claim and
verifying against the same keystore succeeds, but the returned payload has
gained an `iat` claim stamped at signing time — it is not deep-equal to
the original payload. -/
theorem roundtrip_payload_not_deep_equal :
    createToken 0 { body := "x" } none [("a", "k")] "HS512" =
      .ok (.valid { kid := some "a", alg := "HS512",
                    payload := { iat := some 0, body := "x" }, signedWith := "k" }) ∧
    verifyTokenAndReturnPayloadAndKid 0 none
      (.valid { kid := some "a", alg := "HS512",
                payload := { iat := some 0, body := "x" }, signedWith := "k" })
      [("a", "k")] "local" = .ok ({ iat := some 0, body := "x" }, "a") ∧
    ({ iat := some 0, body := "x" } : Payload) ≠ { body := "x" } :=
  ⟨rfl, rfl, by decide⟩

/-- C6 amended: for a payload with no `iat` claim whose `exp` claim (if
any) lies in the future, and a non-empty duplicate-free keystore of truthy
ids and truthy key material, with the configured max age not zero,
issuing and then verifying with the same keystore succeeds, returns the
payload with `iat` stamped to the signing clock (deep-equal to the
original everywhere else), and reports a key id present in the
keystore. -/
theorem roundtrip_amended (now : Int) (maxAgeEnv : Option Nat) (P : Payload)
    (ks : Keystore)
    (hne : ks ≠ [])
    (hids : ∀ pr ∈ ks, (pr : KeyId × Key).1.isEmpty = false)
    (hvals : ∀ pr ∈ ks, (pr : KeyId × Key).2.isEmpty = false)
    (hnodup : (ks.map Prod.fst).Nodup)
    (hiat : P.iat = none)
    (hexp : ∀ e, P.exp = some e → now < e)
    (hmax : maxAgeEnv ≠ some 0) :
    ∃ tok kid,
      createToken now P none ks "HS512" = .ok tok ∧
      verifyTokenAndReturnPayloadAndKid now maxAgeEnv tok ks "local" =
        .ok ({ P with iat := some now }, kid) ∧
      kid ∈ ks.map Prod.fst := by
  have hkey : ∃ key, selectKey ks none = some key ∧ key.isEmpty = false ∧
      ∃ pr ∈ ks, (pr : KeyId × Key).2 = key := by
    cases hdef : truthyLookup ks "default" with
    | some d =>
      refine ⟨d, by simp [selectKey, hdef], truthyLookup_nonempty hdef, ?_⟩
      unfold truthyLookup at hdef
      cases hf : ks.find? (fun pr => pr.1 == "default") with
      | none => rw [hf] at hdef; cases hdef
      | some pr =>
        rw [hf] at hdef
        have hm := List.mem_of_find?_eq_some hf
        cases he : pr.2.isEmpty with
        | true => simp [he] at hdef
        | false =>
          simp only [he, Bool.false_eq_true, if_false, Option.some.injEq] at hdef
          exact ⟨pr, hm, hdef⟩
    | none =>
      cases ks with
      | nil => exact absurd rfl hne
      | cons hd tl =>
        exact ⟨hd.2, by simp [selectKey, hdef],
          hvals hd (List.mem_cons_self hd tl),
          hd, List.mem_cons_self hd tl, rfl⟩
  obtain ⟨key, hsel, hkne, pr1, hpr1mem, hpr1val⟩ := hkey
  have hfindv : ∃ pr0, ks.find? (fun pr => pr.2 == key) = some pr0 := by
    have hs : (ks.find? (fun pr => pr.2 == key)).isSome := by
      rw [List.find?_isSome]
      exact ⟨pr1, hpr1mem, by simp [hpr1val]⟩
    exact Option.isSome_iff_exists.mp hs
  obtain ⟨pr0, hfind0⟩ := hfindv
  have hpr0mem : pr0 ∈ ks := List.mem_of_find?_eq_some hfind0
  have hpr0val : pr0.2 = key := by
    have hp := List.find?_some hfind0
    simpa using hp
  have hkid0ne : pr0.1.isEmpty = false := hids pr0 hpr0mem
  have hct : createToken now P none ks "HS512" =
      .ok (.valid { kid := some pr0.1, alg := "HS512",
                    payload := signPayload now P, signedWith := key }) := by
    unfold createToken
    rw [hsel]
    simp only [hkne, Bool.false_eq_true, if_false, hfind0, Option.map_some']
  have hlook : truthyLookup ks pr0.1 = some key := by
    unfold truthyLookup
    rw [find_fst_of_nodup hnodup hpr0mem]
    simp only [hpr0val, hkne, Bool.false_eq_true, if_false]
  have hsp : signPayload now P = { P with iat := some now } := by
    simp [signPayload, hiat]
  have hver := jwtVerify_fresh now maxAgeEnv
    { kid := some pr0.1, alg := "HS512", payload := signPayload now P,
      signedWith := key }
    hkne rfl (by simp [signPayload, hiat])
    (fun e he => hexp e (by simpa [signPayload] using he)) hmax
  have hveng := verify_via_kid now maxAgeEnv ks "local"
    { kid := some pr0.1, alg := "HS512", payload := signPayload now P,
      signedWith := key }
    pr0.1 key (signPayload now P) rfl hkid0ne hlook hver
  refine ⟨_, pr0.1, hct, ?_, List.mem_map_of_mem Prod.fst hpr0mem⟩
  rw [hveng, hsp]

/-- C6 amended witness: a concrete one-key round trip with the `iat`
stamp. -/
theorem roundtrip_amended_witness :
    ∃ tok kid,
      createToken 0 { body := "w" } none [("a", "k")] "HS512" = .ok tok ∧
      verifyTokenAndReturnPayloadAndKid 0 none tok [("a", "k")] "local" =
        .ok ({ ({ body := "w" } : Payload) with iat := some 0 }, kid) ∧
      kid ∈ ([("a", "k")] : Keystore).map Prod.fst :=
  roundtrip_amended 0 none { body := "w" } [("a", "k")] (by decide) (by decide)
    (by decide) (by decide) rfl (fun e he => Option.noConfusion he) (by decide)

/-- C7: issuance key selection — an empty keystore fails with the signing
error; a truthy explicitly requested key id wins; otherwise a truthy
`"default"` entry; otherwise the first entry of the keystore (failing if
its material is falsy).  The header kid of the produced token is in every
case the reverse lookup of the selected key material by value equality,
which can differ from the requested id when two ids hold identical
material. -/
theorem key_selection (now : Int) (P : Payload) (alg : String) :
    (∀ kidOpt, createToken now P kidOpt [] alg = .error .signingError) ∧
    (∀ (ks : Keystore) (kid : String) (k : Key), truthyLookup ks kid = some k →
      createToken now P (some kid) ks alg =
        .ok (.valid { kid := (ks.find? (fun pr => pr.2 == k)).map Prod.fst,
                      alg := alg, payload := signPayload now P, signedWith := k })) ∧
    (∀ (ks : Keystore) (kidOpt : Option String) (k : Key),
      (∀ kid, kidOpt = some kid → truthyLookup ks kid = none) →
      truthyLookup ks "default" = some k →
      createToken now P kidOpt ks alg =
        .ok (.valid { kid := (ks.find? (fun pr => pr.2 == k)).map Prod.fst,
                      alg := alg, payload := signPayload now P, signedWith := k })) ∧
    (∀ (ks : Keystore) (kidOpt : Option String) (hd : KeyId × Key) (tl : Keystore),
      ks = hd :: tl →
      (∀ kid, kidOpt = some kid → truthyLookup ks kid = none) →
      truthyLookup ks "default" = none →
      createToken now P kidOpt ks alg =
        (if hd.2.isEmpty then .error .signingError
         else .ok (.valid { kid := (ks.find? (fun pr => pr.2 == hd.2)).map Prod.fst,
                            alg := alg, payload := signPayload now P,
                            signedWith := hd.2 }))) := by
  refine ⟨?_, ?_, ?_, ?_⟩
  · intro kidOpt
    unfold createToken selectKey
    cases kidOpt <;> simp [truthyLookup]
  · intro ks kid k hk
    unfold createToken selectKey
    simp only [hk, Option.some_orElse]
    simp [truthyLookup_nonempty hk]
  · intro ks kidOpt k hno hdef
    unfold createToken selectKey
    cases kidOpt with
    | none =>
      simp only [hdef, Option.none_orElse, Option.some_orElse]
      simp [truthyLookup_nonempty hdef]
    | some kid =>
      simp only [hno kid rfl, hdef, Option.none_orElse, Option.some_orElse]
      simp [truthyLookup_nonempty hdef]
  · intro ks kidOpt hd tl hks hno hdef
    subst hks
    unfold createToken selectKey
    cases kidOpt with
    | none =>
      simp only [hdef, Option.none_orElse, List.head?_cons, Option.map_some']
    | some kid =>
      simp only [hno kid rfl, hdef, Option.none_orElse, List.head?_cons,
        Option.map_some']

/-- C7 witness: requesting key id "b" whose material equals the earlier
entry "a" embeds the reverse-looked-up id "a" in the header, and an empty
keystore fails with the signing error. -/
theorem key_selection_witness :
    createToken 0 { body := "x" } (some "b") [("a", "k"), ("b", "k")] "HS512" =
      .ok (.valid { kid := some "a", alg := "HS512",
                    payload := { iat := some 0, body := "x" },
                    signedWith := "k" }) ∧
    createToken 0 { body := "x" } none [] "HS512" = .error .signingError :=
  ⟨(key_selection 0 { body := "x" } "HS512").2.1 [("a", "k"), ("b", "k")] "b" "k" rfl,
   (key_selection 0 { body := "x" } "HS512").1 none⟩
